import Mathlib

/-!
Shallow embedding of the lap-submission pipeline of `lap_tracker.py`
(6-Urenloop Lap Tracker).

The embedded fragment covers the pure data flow of the pipeline:
`process_lap`, `check_and_process`, `get_class_id_by_name`,
`add_lap_to_supabase`, `add_lap_to_csv`, `is_recent_scan`,
`update_recent_scan`, and the state reset performed by
`show_success_screen`'s deferred `restore_main` callback.

Modelling conventions:
* Python's `str.strip()` is `pyStrip` (drop leading and trailing
  whitespace characters, executable on `List Char`).
* `datetime.now()` is an explicit `now : Int` parameter (seconds);
  `(now - last_scan_time).total_seconds() < 30` becomes `now - t < 30`.
* The Supabase backend is an explicit environment `Env`: whether a
  client exists (`supabase`), the outcome of the `classes` table query
  for a given name (`classesQuery`), and whether a `laps` insert is
  acknowledged with data (`lapInsert`).
* Python dicts (`classes_dict`, `barcode_dict`, `recent_scans`) are
  association lists, with insertion modelled by consing (so a later
  binding shadows an earlier one, as dict assignment overwrites).
* The CSV log is the list of records passed to `add_lap_to_csv`,
  newest first; serialization of the `class_id` and `scan_type` columns
  is kept as separate functions (`class_id_field`, `scan_type`).
* Python truthiness of an `Optional[str]` (`if class_id ...`,
  `class_id or "UNKNOWN"`) is `pyTruthy`: `None` and `""` are falsy.
* `process_lap` returns, besides the new state, two effect flags:
  whether the remote `classes` lookup was executed and whether
  `add_lap_to_supabase` was invoked.
-/

namespace LapTracker

/-- Model of Python's `str.strip()`: remove leading and trailing
whitespace characters. -/
def pyStrip (s : String) : String :=
  ⟨(s.data.dropWhile Char.isWhitespace).rdropWhile Char.isWhitespace⟩

/-- Python truthiness of an `Optional[str]`: `None` and the empty string
are falsy, every other string is truthy. -/
def pyTruthy : Option String → Bool
  | none => false
  | some s => !s.isEmpty

/-- Outcome of the remote `classes` table query
(`supabase.table("classes").select("id").eq("name", n).execute()`):
a row with an id was returned, no row was returned, or the call raised. -/
inductive RemoteResult where
  | found (id : String)
  | notFound
  | err
deriving DecidableEq

/-- The external Supabase backend as seen by the pipeline. -/
structure Env where
  /-- Whether `self.supabase` is a connected client (not `None`). -/
  supabase : Bool
  /-- Result of querying the `classes` table by exact name. -/
  classesQuery : String → RemoteResult
  /-- Whether inserting a lap row for this class id is acknowledged
  with data (`response.data` truthy); `false` also covers a raised
  exception. -/
  lapInsert : String → Bool

/-- One row appended to the per-day CSV log by `add_lap_to_csv`
(the `timestamp,class_name,class_id,success,scan_type` record, with
`class_id` kept as the `Optional[str]` argument and `scan_type` kept as
the boolean `is_duplicate` it is serialized from). -/
structure LapRecord where
  timestamp : Int
  class_name : String
  class_id : Option String
  success : Bool
  is_duplicate : Bool
deriving DecidableEq

/-- Serialization of the `class_id` CSV column: `class_id or "UNKNOWN"`
(Python `or` replaces both `None` and `""` by the sentinel). -/
def class_id_field : Option String → String
  | none => "UNKNOWN"
  | some s => if s.isEmpty then "UNKNOWN" else s

/-- Serialization of the `scan_type` CSV column:
`"DUPLICATE_SCAN" if is_duplicate else "NORMAL"`. -/
def scan_type (is_duplicate : Bool) : String :=
  if is_duplicate then "DUPLICATE_SCAN" else "NORMAL"

/-- The mutable state of a `LapTracker` instance that the pipeline
touches, together with the growing CSV log. -/
structure TrackerState where
  /-- `self.processing`: re-entrancy guard. -/
  processing : Bool
  /-- `self.last_processed_text`: last processed (stripped) input. -/
  last_processed_text : String
  /-- `self.recent_scans`: class name ↦ time of most recent scan. -/
  recent_scans : List (String × Int)
  /-- `self.classes_dict`: class name ↦ class id. -/
  classes_dict : List (String × String)
  /-- `self.barcode_dict`: barcode ↦ class name. -/
  barcode_dict : List (String × String)
  /-- Records appended to the per-day CSV file, newest first. -/
  csv_log : List LapRecord
deriving DecidableEq

/-- `add_lap_to_csv(class_name, class_id, success, is_duplicate)`:
append one record (the code strips `class_name` when writing the row). -/
def add_lap_to_csv (now : Int) (log : List LapRecord) (class_name : String)
    (class_id : Option String) (success is_duplicate : Bool) : List LapRecord :=
  { timestamp := now, class_name := pyStrip class_name, class_id := class_id,
    success := success, is_duplicate := is_duplicate } :: log

/-- `is_recent_scan(class_name)`: `True` iff the class has a recorded
scan strictly less than 30 seconds ago. -/
def is_recent_scan (now : Int) (recent_scans : List (String × Int))
    (class_name : String) : Bool :=
  match recent_scans.lookup class_name with
  | some last_scan_time => decide (now - last_scan_time < 30)
  | none => false

/-- `update_recent_scan(class_name)`: record `now` as the class's most
recent scan time (dict assignment, modelled by shadowing cons). -/
def update_recent_scan (now : Int) (recent_scans : List (String × Int))
    (class_name : String) : List (String × Int) :=
  (class_name, now) :: recent_scans

/-- The barcode-resolution step shared by `process_lap` (display name)
and `get_class_id_by_name` (final class name): replace a known barcode
by its mapped class name, otherwise keep the text as is. -/
def display_name (barcode_dict : List (String × String)) (t : String) : String :=
  match barcode_dict.lookup t with
  | some class_name => class_name
  | none => t

/-- Result of `get_class_id_by_name`: the returned id, the (possibly
extended) `classes_dict`, and whether the remote lookup was executed. -/
structure ResolveOut where
  class_id : Option String
  classes_dict : List (String × String)
  remoteLookup : Bool
deriving DecidableEq

/-- `get_class_id_by_name(input_text)`: strip, map a barcode to its
class name, look the name up locally, and only on a local miss (and
with a client available) query the remote `classes` table, caching a
found mapping in `classes_dict`. -/
def get_class_id_by_name (env : Env) (barcode_dict classes_dict : List (String × String))
    (input_text : String) : ResolveOut :=
  let t := pyStrip input_text
  let final_class_name := display_name barcode_dict t
  match classes_dict.lookup final_class_name with
  | some id => ⟨some id, classes_dict, false⟩
  | none =>
    if env.supabase then
      match env.classesQuery final_class_name with
      | RemoteResult.found id =>
        ⟨some id, (final_class_name, id) :: classes_dict, true⟩
      | RemoteResult.notFound => ⟨none, classes_dict, true⟩
      | RemoteResult.err => ⟨none, classes_dict, true⟩
    else ⟨none, classes_dict, false⟩

/-- `add_lap_to_supabase(class_id)`: `False` without a client, otherwise
the insert's acknowledgement. -/
def add_lap_to_supabase (env : Env) (class_id : String) : Bool :=
  env.supabase && env.lapInsert class_id

/-- Result of one pipeline invocation: the new state, whether the
remote `classes` lookup was executed, and whether `add_lap_to_supabase`
was invoked (the only place a remote `laps` insert can happen). -/
structure StepOut where
  st : TrackerState
  remoteLookup : Bool
  remoteInsert : Bool
deriving DecidableEq

/-- `process_lap()`: the submission pipeline, with the raw content of
the input field passed explicitly. Empty input, the `processing` guard
and the identical-text guard return with nothing changed; otherwise the
input is resolved, the duplicate window checked, the remote insert
attempted only for a resolved non-duplicate, and exactly one CSV record
appended. -/
def process_lap (env : Env) (now : Int) (st : TrackerState) (raw : String) : StepOut :=
  let input_text := pyStrip raw
  if input_text = "" then ⟨st, false, false⟩
  else if st.processing then ⟨st, false, false⟩
  else if input_text = st.last_processed_text then ⟨st, false, false⟩
  else
    let dname := display_name st.barcode_dict input_text
    let is_duplicate := is_recent_scan now st.recent_scans dname
    let r := get_class_id_by_name env st.barcode_dict st.classes_dict input_text
    let attempt := pyTruthy r.class_id && !is_duplicate
    let success := if attempt then add_lap_to_supabase env (r.class_id.getD "") else false
    let recent := if attempt then update_recent_scan now st.recent_scans dname
      else st.recent_scans
    let csv_name := if input_text = dname then dname
      else input_text ++ " → " ++ dname
    ⟨{ st with
        processing := true
        last_processed_text := input_text
        classes_dict := r.classes_dict
        recent_scans := recent
        csv_log := add_lap_to_csv now st.csv_log csv_name r.class_id success is_duplicate },
      r.remoteLookup, attempt⟩

/-- `check_and_process()`: the auto-submit path; only calls
`process_lap` for non-empty text that is not a re-delivery of the text
just processed, and never while `processing` is set. -/
def check_and_process (env : Env) (now : Int) (st : TrackerState) (raw : String) : StepOut :=
  let text := pyStrip raw
  if st.processing then ⟨st, false, false⟩
  else if text = st.last_processed_text then ⟨st, false, false⟩
  else if !text.isEmpty then process_lap env now st raw
  else ⟨st, false, false⟩

/-- The deferred `restore_main` callback of `show_success_screen`: after
the one-second feedback display, clear the re-entrancy flag and the
last-processed-text marker. -/
def restore_main (st : TrackerState) : TrackerState :=
  { st with processing := false, last_processed_text := "" }

/-! ### Helper lemmas -/

/-- The head of a non-empty `dropWhile p` result does not satisfy `p`. -/
theorem dropWhile_head_not (p : Char → Bool) (l : List Char) (a : Char) (t : List Char)
    (h : l.dropWhile p = a :: t) : p a = false := by
  induction l with
  | nil => simp [List.dropWhile] at h
  | cons b u ih =>
    rw [List.dropWhile_cons] at h
    by_cases hb : p b
    · rw [if_pos hb] at h
      exact ih h
    · rw [if_neg hb] at h
      obtain ⟨rfl, rfl⟩ := List.cons.inj h
      simpa using hb

/-- `rdropWhile p l` is an initial segment of `l`. -/
theorem eq_rdropWhile_append (p : Char → Bool) (l : List Char) :
    l = l.rdropWhile p ++ (l.reverse.takeWhile p).reverse := by
  conv_lhs => rw [← l.reverse_reverse,
    ← List.takeWhile_append_dropWhile (p := p) (l := l.reverse)]
  rw [List.reverse_append, List.rdropWhile]

/-- List-level idempotence of the strip operation. -/
theorem strip_list_idem (p : Char → Bool) (l : List Char) :
    (((l.dropWhile p).rdropWhile p).dropWhile p).rdropWhile p =
      (l.dropWhile p).rdropWhile p := by
  have h1 : ((l.dropWhile p).rdropWhile p).dropWhile p =
      (l.dropWhile p).rdropWhile p := by
    rcases he : (l.dropWhile p).rdropWhile p with _ | ⟨a, t⟩
    · simp
    · obtain hv := eq_rdropWhile_append p (l.dropWhile p)
      rw [he] at hv
      have ha : p a = false := by
        refine dropWhile_head_not p l a
          (t ++ ((l.dropWhile p).reverse.takeWhile p).reverse) ?_
        rw [List.cons_append] at hv
        exact hv
      rw [List.dropWhile_cons, ha]
      simp
  rw [h1, List.rdropWhile_idempotent]

/-- Stripping is idempotent, as for Python's `str.strip()`. -/
theorem pyStrip_idem (s : String) : pyStrip (pyStrip s) = pyStrip s :=
  congrArg String.mk (strip_list_idem Char.isWhitespace s.data)

/-- The resolver's outcome depends on its input only through the final
class name (stripped input with a barcode alias applied). -/
theorem get_class_id_congr (env : Env) (b c : List (String × String)) (x y : String)
    (h : display_name b (pyStrip x) = display_name b (pyStrip y)) :
    get_class_id_by_name env b c x = get_class_id_by_name env b c y := by
  simp only [get_class_id_by_name]
  rw [h]

/-- Once the entry guards pass, `process_lap` flags itself as
processing, stores the stripped text as the last processed input and
appends one CSV record. -/
theorem process_lap_state (env : Env) (now : Int) (st : TrackerState) (raw : String)
    (h0 : ¬ pyStrip raw = "") (h1 : st.processing = false)
    (h2 : ¬ pyStrip raw = st.last_processed_text) :
    (process_lap env now st raw).st.processing = true ∧
    (process_lap env now st raw).st.last_processed_text = pyStrip raw ∧
    ∃ r, (process_lap env now st raw).st.csv_log = r :: st.csv_log := by
  rw [process_lap]
  simp only [h1, if_neg h0, if_neg h2, Bool.false_eq_true, if_false, add_lap_to_csv]
  exact ⟨trivial, trivial, _, rfl⟩

/-! ### Concrete instances used by witnesses and counterexamples -/

/-- A backend with no Supabase client (CSV-only mode). -/
def offlineEnv : Env := ⟨false, fun _ => RemoteResult.err, fun _ => false⟩

/-- A connected backend whose `laps` insert always fails (e.g. RLS
rejection or network error) and whose `classes` query raises. -/
def failingInsertEnv : Env := ⟨true, fun _ => RemoteResult.err, fun _ => false⟩

/-- An idle tracker knowing class `7A` (id `42`) and barcode
`B123 ↦ 7A`, with nothing scanned yet. -/
def sampleState : TrackerState :=
  ⟨false, "", [], [("7A", "42")], [("B123", "7A")], []⟩

/-! ### Claims -/

/-- C1: the spec says `markScanned` runs only after a successful remote
record, so a failed insert establishes no new 30-second cooldown. The
code calls `update_recent_scan` unconditionally in the resolved
non-duplicate branch, right after `add_lap_to_supabase`, even when that
call returned `False` — contradicting its own comment "Update timestamp
for successful scans". Evaluated here: with a connected backend whose
insert fails, the submission is logged as unsuccessful yet the
cooldown timestamp for `7A` is still set. -/
theorem c1_failed_insert_still_starts_cooldown :
    (process_lap failingInsertEnv 100 sampleState "7A").st.recent_scans.lookup "7A" =
      some 100 ∧
    (process_lap failingInsertEnv 100 sampleState "7A").st.csv_log.map
      LapRecord.success = [false] ∧
    (process_lap failingInsertEnv 100 sampleState "7A").remoteInsert = true := by
  decide

/-- C5: for a team with a recorded last-scan time, the duplicate check
returns `true` exactly when strictly less than 30 seconds have elapsed;
hence a resubmission 31 seconds after an accepted scan is not a
duplicate. -/
theorem c5_recent_scan_iff_lt_30 (now : Int) (recent_scans : List (String × Int))
    (class_name : String) (t : Int)
    (h : recent_scans.lookup class_name = some t) :
    is_recent_scan now recent_scans class_name = true ↔ now - t < 30 := by
  simp [is_recent_scan, h]

/-- Witness for C5: scanned at time 0, rechecked at 31 seconds. -/
theorem c5_recent_scan_iff_lt_30_witness :
    ([("7A", (0 : Int))].lookup "7A" = some 0) ∧
    (is_recent_scan 31 [("7A", 0)] "7A" = true ↔ (31 : Int) - 0 < 30) :=
  ⟨by decide, c5_recent_scan_iff_lt_30 31 [("7A", 0)] "7A" 0 (by decide)⟩

/-- C9: a class name absent from `recent_scans` is never classified as
duplicate, so a team's first-ever submission passes the duplicate
check. -/
theorem c9_unscanned_never_duplicate (now : Int) (recent_scans : List (String × Int))
    (class_name : String) (h : recent_scans.lookup class_name = none) :
    is_recent_scan now recent_scans class_name = false := by
  simp [is_recent_scan, h]

/-- Witness for C9: empty recent-scans map. -/
theorem c9_unscanned_never_duplicate_witness :
    (([] : List (String × Int)).lookup "7A" = none) ∧
    is_recent_scan 5 [] "7A" = false :=
  ⟨rfl, c9_unscanned_never_duplicate 5 [] "7A" rfl⟩

/-- C10: an input that strips to the empty string makes both entry
points return at once: the returned state is the input state (no CSV
record, `recent_scans`, `last_processed_text`, `processing` and
`classes_dict` untouched) and no remote lookup or insert happens. -/
theorem c10_blank_input_noop (env : Env) (now : Int) (st : TrackerState)
    (raw : String) (h : pyStrip raw = "") :
    process_lap env now st raw = ⟨st, false, false⟩ ∧
    check_and_process env now st raw = ⟨st, false, false⟩ := by
  constructor
  · rw [process_lap]
    simp [h]
  · rw [check_and_process]
    by_cases hp : st.processing
    · simp [hp]
    · by_cases he : pyStrip raw = st.last_processed_text
      · simp [hp, he]
      · simp [hp, he, h]
        intro _ h2
        exact absurd h2 (by decide)

/-- C3: an input matching no barcode, no local class name and no remote
class is still logged: one CSV record is appended, carrying no class id
(the serialized `class_id` column is the `UNKNOWN` sentinel) and
`success = false`. -/
theorem c3_unmatched_logged_unresolved (env : Env) (now : Int) (st : TrackerState)
    (raw : String)
    (h0 : ¬ pyStrip raw = "") (h1 : st.processing = false)
    (h2 : ¬ pyStrip raw = st.last_processed_text)
    (hbar : st.barcode_dict.lookup (pyStrip raw) = none)
    (hcls : st.classes_dict.lookup (pyStrip raw) = none)
    (hrem : ∀ id, ¬ env.classesQuery (pyStrip raw) = RemoteResult.found id) :
    ∃ r, (process_lap env now st raw).st.csv_log = r :: st.csv_log ∧
      r.class_id = none ∧ r.success = false ∧
      class_id_field r.class_id = "UNKNOWN" := by
  have hid : (get_class_id_by_name env st.barcode_dict st.classes_dict
      (pyStrip raw)).class_id = none := by
    rw [get_class_id_by_name]
    simp only [pyStrip_idem, display_name, hbar, hcls]
    cases hs : env.supabase
    · simp
    · rcases hq : env.classesQuery (pyStrip raw) with id | _ | _
      · exact absurd hq (hrem id)
      · simp [hq]
      · simp [hq]
  rw [process_lap]
  simp only [h1, if_neg h0, if_neg h2, Bool.false_eq_true, if_false,
    add_lap_to_csv, hid, pyTruthy, Bool.false_and, if_false]
  refine ⟨_, rfl, ?_, ?_, ?_⟩ <;> simp [class_id_field]

/-- Witness for C3: the unknown input `XYZ` against the sample state
and a backend that finds nothing. -/
theorem c3_unmatched_logged_unresolved_witness :
    ∃ r, (process_lap failingInsertEnv 4 sampleState "XYZ").st.csv_log =
        r :: sampleState.csv_log ∧
      r.class_id = none ∧ r.success = false ∧
      class_id_field r.class_id = "UNKNOWN" :=
  c3_unmatched_logged_unresolved failingInsertEnv 4 sampleState "XYZ" (by decide)
    (by decide) (by decide) (by decide) (by decide) (fun id => by simp [failingInsertEnv])

/-- C4: once the three entry guards pass, exactly one CSV record is
appended — whatever the remote backend does — and that record carries
`success = true` only if the resolved id was truthy and the duplicate
check was negative. -/
theorem c4_exactly_one_record (env : Env) (now : Int) (st : TrackerState)
    (raw : String)
    (h0 : ¬ pyStrip raw = "") (h1 : st.processing = false)
    (h2 : ¬ pyStrip raw = st.last_processed_text) :
    ∃ r, (process_lap env now st raw).st.csv_log = r :: st.csv_log ∧
      (r.success = true →
        pyTruthy (get_class_id_by_name env st.barcode_dict st.classes_dict
          (pyStrip raw)).class_id = true ∧
        is_recent_scan now st.recent_scans
          (display_name st.barcode_dict (pyStrip raw)) = false) := by
  rw [process_lap]
  simp only [h1, if_neg h0, if_neg h2, Bool.false_eq_true, if_false,
    add_lap_to_csv]
  refine ⟨_, rfl, fun hs => ?_⟩
  by_cases ha : pyTruthy (get_class_id_by_name env st.barcode_dict st.classes_dict
      (pyStrip raw)).class_id &&
      !is_recent_scan now st.recent_scans (display_name st.barcode_dict (pyStrip raw))
  · simpa using ha
  · rw [if_neg ha] at hs
    exact absurd hs (by simp)

/-- Witness for C4: submitting `7A` on the sample state in CSV-only
mode still appends exactly one record. -/
theorem c4_exactly_one_record_witness :
    ∃ r, (process_lap offlineEnv 3 sampleState "7A").st.csv_log =
        r :: sampleState.csv_log ∧
      (r.success = true →
        pyTruthy (get_class_id_by_name offlineEnv sampleState.barcode_dict
          sampleState.classes_dict (pyStrip "7A")).class_id = true ∧
        is_recent_scan 3 sampleState.recent_scans
          (display_name sampleState.barcode_dict (pyStrip "7A")) = false) :=
  c4_exactly_one_record offlineEnv 3 sampleState "7A" (by decide) (by decide)
    (by decide)

/-- C6: when the canonical team name is inside the 30-second window,
`add_lap_to_supabase` is never invoked — even if the id resolved — and
the submission is still logged locally, as an unsuccessful duplicate. -/
theorem c6_duplicate_skips_remote (env : Env) (now : Int) (st : TrackerState)
    (raw : String)
    (h0 : ¬ pyStrip raw = "") (h1 : st.processing = false)
    (h2 : ¬ pyStrip raw = st.last_processed_text)
    (hdup : is_recent_scan now st.recent_scans
      (display_name st.barcode_dict (pyStrip raw)) = true) :
    (process_lap env now st raw).remoteInsert = false ∧
    ∃ r, (process_lap env now st raw).st.csv_log = r :: st.csv_log ∧
      r.is_duplicate = true ∧ r.success = false := by
  rw [process_lap]
  simp only [h1, if_neg h0, if_neg h2, Bool.false_eq_true, if_false,
    add_lap_to_csv, hdup, Bool.not_true, Bool.and_false, if_false]
  exact ⟨trivial, _, rfl, rfl, rfl⟩

/-- Witness for C6: resubmitting `7A` 10 seconds after a scan. -/
theorem c6_duplicate_skips_remote_witness :
    (process_lap failingInsertEnv 10
      { sampleState with recent_scans := [("7A", 0)] } "7A").remoteInsert = false ∧
    ∃ r, (process_lap failingInsertEnv 10
        { sampleState with recent_scans := [("7A", 0)] } "7A").st.csv_log =
        r :: ({ sampleState with recent_scans := [("7A", 0)] }).csv_log ∧
      r.is_duplicate = true ∧ r.success = false :=
  c6_duplicate_skips_remote failingInsertEnv 10
    { sampleState with recent_scans := [("7A", 0)] } "7A" (by decide) (by decide)
    (by decide) (by decide)

/-- Witness for C10: a whitespace-only input on a sample state. -/
theorem c10_blank_input_noop_witness :
    pyStrip "   " = "" ∧
    (process_lap offlineEnv 7 sampleState "   " = ⟨sampleState, false, false⟩ ∧
     check_and_process offlineEnv 7 sampleState "   " = ⟨sampleState, false, false⟩) :=
  ⟨by decide, c10_blank_input_noop offlineEnv 7 sampleState "   " (by decide)⟩

/-- C7: a name found by the remote lookup is cached in `classes_dict`,
so resolving the identical input again answers from the local table
with no remote call; and any name already present in the local table is
answered locally with no remote call. -/
theorem c7_remote_resolution_cached (env : Env)
    (barcode_dict classes_dict : List (String × String)) (input id : String)
    (hmiss : classes_dict.lookup (display_name barcode_dict (pyStrip input)) = none)
    (hsup : env.supabase = true)
    (hfound : env.classesQuery (display_name barcode_dict (pyStrip input)) =
      RemoteResult.found id) :
    get_class_id_by_name env barcode_dict classes_dict input =
      ⟨some id, (display_name barcode_dict (pyStrip input), id) :: classes_dict,
        true⟩ ∧
    get_class_id_by_name env barcode_dict
        ((display_name barcode_dict (pyStrip input), id) :: classes_dict) input =
      ⟨some id, (display_name barcode_dict (pyStrip input), id) :: classes_dict,
        false⟩ ∧
    ∀ (c2 : List (String × String)) (id2 : String),
      c2.lookup (display_name barcode_dict (pyStrip input)) = some id2 →
      get_class_id_by_name env barcode_dict c2 input = ⟨some id2, c2, false⟩ := by
  refine ⟨?_, ?_, fun c2 id2 h2 => ?_⟩
  · rw [get_class_id_by_name]
    simp only [pyStrip_idem, hmiss, hsup, hfound, if_true]
  · rw [get_class_id_by_name]
    simp only [pyStrip_idem, List.lookup_cons_self]
  · rw [get_class_id_by_name]
    simp only [pyStrip_idem, h2]

/-- A backend knowing only class `8B` with id `77`. -/
def remoteEnv8B : Env :=
  ⟨true, fun n => if n = "8B" then RemoteResult.found "77" else RemoteResult.notFound,
    fun _ => true⟩

/-- Witness for C7: input `8B` unknown locally, found remotely with
id `77`, on an otherwise empty local table. -/
theorem c7_remote_resolution_cached_witness :
    get_class_id_by_name remoteEnv8B [] [] "8B" =
      ⟨some "77", [(display_name [] (pyStrip "8B"), "77")], true⟩ ∧
    get_class_id_by_name remoteEnv8B [] [(display_name [] (pyStrip "8B"), "77")]
        "8B" =
      ⟨some "77", [(display_name [] (pyStrip "8B"), "77")], false⟩ ∧
    ∀ (c2 : List (String × String)) (id2 : String),
      c2.lookup (display_name [] (pyStrip "8B")) = some id2 →
      get_class_id_by_name remoteEnv8B [] c2 "8B" = ⟨some id2, c2, false⟩ :=
  c7_remote_resolution_cached remoteEnv8B [] [] "8B" "77" (by decide) (by decide)
    (by decide)

/-- C8: a processed submission raises the `processing` flag and stores
its stripped text; while that flag is up (processing or feedback
display), resubmitting the identical raw text changes nothing — no
record, no remote traffic; the deferred `restore_main` reset clears the
flag and the marker, after which the identical text is processed again
and appends a new record. -/
theorem c8_identical_text_guard (env env2 : Env) (now now2 : Int)
    (st : TrackerState) (raw : String)
    (h0 : ¬ pyStrip raw = "") (h1 : st.processing = false)
    (h2 : ¬ pyStrip raw = st.last_processed_text) :
    (process_lap env now st raw).st.processing = true ∧
    (process_lap env now st raw).st.last_processed_text = pyStrip raw ∧
    process_lap env2 now2 (process_lap env now st raw).st raw =
      ⟨(process_lap env now st raw).st, false, false⟩ ∧
    check_and_process env2 now2 (process_lap env now st raw).st raw =
      ⟨(process_lap env now st raw).st, false, false⟩ ∧
    (restore_main (process_lap env now st raw).st).processing = false ∧
    (restore_main (process_lap env now st raw).st).last_processed_text = "" ∧
    ∃ r, (process_lap env2 now2
        (restore_main (process_lap env now st raw).st) raw).st.csv_log =
      r :: (process_lap env now st raw).st.csv_log := by
  obtain ⟨hp, hl, -⟩ := process_lap_state env now st raw h0 h1 h2
  refine ⟨hp, hl, ?_, ?_, rfl, rfl, ?_⟩
  · rw [process_lap]
    simp [h0, hp]
  · rw [check_and_process]
    simp [hp]
  · obtain ⟨-, -, r, hr⟩ := process_lap_state env2 now2
      (restore_main (process_lap env now st raw).st) raw h0 rfl h0
    exact ⟨r, hr⟩

/-- Witness for C8: submitting `7A` twice in a row on the sample
state, then again after the feedback reset. -/
theorem c8_identical_text_guard_witness :
    (process_lap offlineEnv 1 sampleState "7A").st.processing = true ∧
    (process_lap offlineEnv 1 sampleState "7A").st.last_processed_text =
      pyStrip "7A" ∧
    process_lap offlineEnv 2 (process_lap offlineEnv 1 sampleState "7A").st "7A" =
      ⟨(process_lap offlineEnv 1 sampleState "7A").st, false, false⟩ ∧
    check_and_process offlineEnv 2 (process_lap offlineEnv 1 sampleState "7A").st
        "7A" =
      ⟨(process_lap offlineEnv 1 sampleState "7A").st, false, false⟩ ∧
    (restore_main (process_lap offlineEnv 1 sampleState "7A").st).processing =
      false ∧
    (restore_main (process_lap offlineEnv 1 sampleState "7A").st).last_processed_text =
      "" ∧
    ∃ r, (process_lap offlineEnv 2
        (restore_main (process_lap offlineEnv 1 sampleState "7A").st)
        "7A").st.csv_log =
      r :: (process_lap offlineEnv 1 sampleState "7A").st.csv_log :=
  c8_identical_text_guard offlineEnv offlineEnv 1 2 sampleState "7A" (by decide)
    (by decide) (by decide)

/-- C2, counterexample to the claim as stated: with barcode `B123`
mapped to class `7A` (id `42`), the two submissions log records whose
`class_name` fields differ — the barcode run logs `B123 → 7A`, the
direct run logs `7A`. -/
theorem c2_counterexample :
    ¬ ((process_lap offlineEnv 0 sampleState "B123").st.csv_log.map
        LapRecord.class_name =
       (process_lap offlineEnv 0 sampleState "7A").st.csv_log.map
        LapRecord.class_name) := by
  decide

/-- C2, amended: submitting a barcode `B` mapped to class `C` and
submitting `C` directly (same state) resolve to the same class id and
log records agreeing on `class_id`, `success` and the duplicate flag
(hence `scan_type`); the `class_name` fields differ, the barcode run
logging `B → C` and the direct run logging `C`. -/
theorem c2_barcode_alias (env : Env) (now : Int) (st : TrackerState) (B C : String)
    (hB : pyStrip B = B) (hC : pyStrip C = C)
    (hBne : ¬ B = "") (hCne : ¬ C = "") (hBC : ¬ B = C)
    (h1 : st.processing = false)
    (hBlast : ¬ B = st.last_processed_text) (hClast : ¬ C = st.last_processed_text)
    (hbar : st.barcode_dict.lookup B = some C)
    (hCbar : st.barcode_dict.lookup C = none) :
    (get_class_id_by_name env st.barcode_dict st.classes_dict B).class_id =
      (get_class_id_by_name env st.barcode_dict st.classes_dict C).class_id ∧
    ∃ rB rC,
      (process_lap env now st B).st.csv_log = rB :: st.csv_log ∧
      (process_lap env now st C).st.csv_log = rC :: st.csv_log ∧
      rB.class_id = rC.class_id ∧ rB.success = rC.success ∧
      rB.is_duplicate = rC.is_duplicate ∧
      scan_type rB.is_duplicate = scan_type rC.is_duplicate ∧
      rB.class_name = pyStrip (B ++ " → " ++ C) ∧ rC.class_name = C := by
  have hdB : display_name st.barcode_dict B = C := by
    simp only [display_name, hbar]
  have hdC : display_name st.barcode_dict C = C := by
    simp only [display_name, hCbar]
  have hres : get_class_id_by_name env st.barcode_dict st.classes_dict B =
      get_class_id_by_name env st.barcode_dict st.classes_dict C := by
    refine get_class_id_congr env _ _ B C ?_
    rw [hB, hC, hdB, hdC]
  refine ⟨by rw [hres], ?_⟩
  rw [process_lap, process_lap]
  simp only [hB, hC, if_neg hBne, if_neg hCne, h1, Bool.false_eq_true, if_false,
    if_neg hBlast, if_neg hClast, hdB, hdC, hres, if_neg hBC, if_pos rfl,
    add_lap_to_csv]
  exact ⟨_, _, rfl, rfl, rfl, rfl, rfl, rfl, rfl, hC⟩

/-- Witness for the amended C2: barcode `B123` against class `7A` on
the sample state. -/
theorem c2_barcode_alias_witness :
    (get_class_id_by_name offlineEnv sampleState.barcode_dict
        sampleState.classes_dict "B123").class_id =
      (get_class_id_by_name offlineEnv sampleState.barcode_dict
        sampleState.classes_dict "7A").class_id ∧
    ∃ rB rC,
      (process_lap offlineEnv 0 sampleState "B123").st.csv_log =
        rB :: sampleState.csv_log ∧
      (process_lap offlineEnv 0 sampleState "7A").st.csv_log =
        rC :: sampleState.csv_log ∧
      rB.class_id = rC.class_id ∧ rB.success = rC.success ∧
      rB.is_duplicate = rC.is_duplicate ∧
      scan_type rB.is_duplicate = scan_type rC.is_duplicate ∧
      rB.class_name = pyStrip ("B123" ++ " → " ++ "7A") ∧ rC.class_name = "7A" :=
  c2_barcode_alias offlineEnv 0 sampleState "B123" "7A" (by decide) (by decide)
    (by decide) (by decide) (by decide) (by decide) (by decide) (by decide)
    (by decide) (by decide)

end LapTracker
